import Mathlib

/-!
Shallow embedding of `openedx/core/djangoapps/xblock/runtime/runtime.py`
(the XBlock runtime adapter of edx-platform): the data model and the
operations of `XBlockRuntime` and `XBlockRuntimeSystem`, with theorems
checking the natural-language specification against this embedding.

Python dictionaries are modelled as functions into `Option`; in-place
mutation becomes explicit state passing.  External collaborators that the
source file only calls into (the web framework, the xblock plugin
framework, `FieldDataCache`, `EphemeralKeyValueStore`, URL helpers) are
modelled by minimal structures faithful to how `runtime.py` uses them.
-/

namespace XBlockRuntimeModel

/-- Update of a map modelled as a function into `Option` (a Python
dict assignment `m[k] = v`). -/
def setMap {K V : Type} [DecidableEq K] (m : K → Option V) (k : K) (v : V) :
    K → Option V :=
  fun k' => if k' = k then some v else m k'

/-- The empty map (a fresh Python dict `{}`). -/
def emptyMap {K V : Type} : K → Option V := fun _ => none

/-- A Django user as `runtime.py` distinguishes them: an `AnonymousUser`
(carrying the request session key that anonymous-id helpers read), or a
registered user with a database id and a staff flag. -/
inductive UserM
  | anonymousUser (sessionKey : String)
  | registeredUser (id : Nat) (isStaff : Bool)
deriving DecidableEq, Repr

/-- Model of `user.is_anonymous` from the Django user model. -/
def UserM.is_anonymous : UserM → Bool
  | .anonymousUser _ => true
  | .registeredUser _ _ => false

/-- Model of `openedx.core.djangoapps.xblock.data.StudentDataMode`. -/
inductive StudentDataMode
  | Ephemeral
  | Persisted
deriving DecidableEq, Repr

/-- A `user_id` value as set by `XBlockRuntime.__init__`: either the
integer id of a registered user or the anonymous-id string. -/
inductive UserId
  | int (n : Nat)
  | str (s : String)
deriving DecidableEq, Repr

/-- An opaque usage key: `block.scope_ids.usage_id`.  Its
`context_key` is the `LearningContextKey` the block lives in. -/
structure UsageKey where
  context_key : String
  block_id : String
deriving DecidableEq, Repr

/-- Model of `xblock.fields.ScopeIds` as used by `runtime.py`: the key under which
a block's field data is cached. -/
structure ScopeIds where
  usage_id : UsageKey
deriving DecidableEq, Repr

/-- An XBlock, reduced to what `runtime.py` reads from it. -/
structure Block where
  scope_ids : ScopeIds
deriving DecidableEq, Repr

/-- The eight field scopes that `_init_field_data_for_block` routes. -/
inductive Scope
  | content
  | settings
  | parent
  | children
  | user_state_summary
  | user_state
  | user_info
  | preferences
deriving DecidableEq, Repr

/-- Modelled from the spec: `EphemeralKeyValueStore`
(`openedx.core.djangoapps.xblock.runtime.ephemeral_field_data`, not under
src/) is a fresh in-memory key-value store; `runtime.py` only ever
constructs an empty one. -/
structure EphemeralKeyValueStore where
  data : List (String × String)
deriving DecidableEq, Repr

/-- Modelled from the spec: `FieldDataCache`
(`lms.djangoapps.courseware.model_data`, not under src/) is the
database-backed cache of student state; `runtime.py` constructs it from a
block list, a course id and a user, and later extends it with
`add_blocks_to_cache`. -/
structure FieldDataCache where
  course_id : String
  user : UserM
  blocks : List Block
  read_only : Bool
deriving DecidableEq, Repr

/-- Modelled from the spec: `FieldDataCache.add_blocks_to_cache` adds the
given blocks to the cache in place. -/
def FieldDataCache.add_blocks_to_cache (c : FieldDataCache) (bs : List Block) :
    FieldDataCache :=
  { c with blocks := c.blocks ++ bs }

/-- The key-value store a `KvsFieldData` wraps: either a fresh
`EphemeralKeyValueStore` or a `DjangoKeyValueStore` built over a
`FieldDataCache`. -/
inductive KeyValueStore
  | ephemeral (kvs : EphemeralKeyValueStore)
  | django (cache : FieldDataCache)
deriving DecidableEq, Repr

/-- A `FieldData` implementation as `runtime.py` selects them: the
system's authored data store (`BlockstoreFieldData`), the system's
children data store (`BlockstoreChildrenData`), or a `KvsFieldData` over
a key-value store. -/
inductive FieldDataV
  | authored
  | childrenData
  | kvsFieldData (kvs : KeyValueStore)
deriving DecidableEq, Repr

/-- Model of `xblock.field_data.SplitFieldData` as built by
`_init_field_data_for_block`: one entry per scope (the Python dict
literal of lines 331-340).  A `none` entry is a scope mapped to Python
`None`. -/
structure SplitFieldData where
  content : Option FieldDataV
  settings : Option FieldDataV
  parent : Option FieldDataV
  children : Option FieldDataV
  user_state_summary : Option FieldDataV
  user_state : Option FieldDataV
  user_info : Option FieldDataV
  preferences : Option FieldDataV
deriving DecidableEq, Repr

/-- Routing of a `SplitFieldData`: which store backs a given scope. -/
def SplitFieldData.route (s : SplitFieldData) : Scope → Option FieldDataV
  | .content => s.content
  | .settings => s.settings
  | .parent => s.parent
  | .children => s.children
  | .user_state_summary => s.user_state_summary
  | .user_state => s.user_state
  | .user_info => s.user_info
  | .preferences => s.preferences

/-- Model of `XBlockRuntimeSystem`, reduced to the configuration `runtime.py`
reads from it.  Its `authored_data_store` and `children_data_store` are
the singletons `FieldDataV.authored` and `FieldDataV.childrenData`. -/
structure XBlockRuntimeSystem where
  student_data_mode : StudentDataMode
deriving DecidableEq, Repr

/-- Modelled from the spec: `get_xblock_id_for_anonymous_user`
(`openedx.core.djangoapps.xblock.utils`, not under src/) returns the
anonymous XBlock id string for an anonymous user; per the assertion in
`_init_field_data_for_block` it always starts with `"anon"`. -/
def get_xblock_id_for_anonymous_user (u : UserM) : String :=
  match u with
  | .anonymousUser sessionKey => "anon" ++ sessionKey
  | .registeredUser _ _ => "anon"

/-- The per-user runtime `XBlockRuntime`: its user, the `user_id`
attribute set in `__init__`, and its two caches (`block_field_datas` and
`django_field_data_caches`, Python dicts modelled as maps). -/
structure XBlockRuntime where
  system : XBlockRuntimeSystem
  user : Option UserM
  user_id : Option UserId
  block_field_datas : ScopeIds → Option (Option SplitFieldData)
  django_field_data_caches : String → Option FieldDataCache

/-- Model of `XBlockRuntime.__init__(system, user)`: sets `user_id` from the user
and starts with empty caches. -/
def XBlockRuntime.init (system : XBlockRuntimeSystem) (user : Option UserM) :
    XBlockRuntime :=
  { system := system
    user := user
    user_id :=
      match user with
      | none => none
      | some u =>
        if u.is_anonymous then some (.str (get_xblock_id_for_anonymous_user u))
        else
          match u with
          | .registeredUser n _ => some (.int n)
          | .anonymousUser _ => some (.str (get_xblock_id_for_anonymous_user u))
    block_field_datas := emptyMap
    django_field_data_caches := emptyMap }

/-- Model of `XBlockRuntimeSystem.get_runtime(user)`: constructs a new
`XBlockRuntime` for the given user (`self.runtime_class(self, user)`). -/
def XBlockRuntimeSystem.get_runtime (system : XBlockRuntimeSystem)
    (user : Option UserM) : XBlockRuntime :=
  XBlockRuntime.init system user

/-- The `student_data_store` selection of `_init_field_data_for_block`
(lines 305-329): the if/elif chain choosing the per-user store, together
with the updated `django_field_data_caches` dict (mutated in the final
branch). -/
def compute_student_data_store (rt : XBlockRuntime) (block : Block) :
    Option FieldDataV × (String → Option FieldDataCache) :=
  match rt.user with
  | none =>
    -- No user: any access to user-specific fields must fail
    (none, rt.django_field_data_caches)
  | some u =>
    if u.is_anonymous then
      (some (.kvsFieldData (.ephemeral ⟨[]⟩)), rt.django_field_data_caches)
    else if rt.system.student_data_mode = StudentDataMode.Ephemeral then
      (some (.kvsFieldData (.ephemeral ⟨[]⟩)), rt.django_field_data_caches)
    else
      let context_key := block.scope_ids.usage_id.context_key
      match rt.django_field_data_caches context_key with
      | none =>
        let field_data_cache : FieldDataCache :=
          { course_id := context_key, user := u, blocks := [block], read_only := false }
        (some (.kvsFieldData (.django field_data_cache)),
          setMap rt.django_field_data_caches context_key field_data_cache)
      | some c =>
        let field_data_cache := c.add_blocks_to_cache [block]
        (some (.kvsFieldData (.django field_data_cache)),
          setMap rt.django_field_data_caches context_key field_data_cache)

/-- Model of `XBlockRuntime._init_field_data_for_block` (lines 301-340): selects
the student data store, then builds the `SplitFieldData` routing each
scope.  Returns the field data and the runtime with its
`django_field_data_caches` updated. -/
def _init_field_data_for_block (rt : XBlockRuntime) (block : Block) :
    SplitFieldData × XBlockRuntime :=
  let sds := compute_student_data_store rt block
  let student_data_store := sds.1
  ({ content := some .authored
     settings := some .authored
     parent := some .authored
     children := some .childrenData
     user_state_summary := student_data_store
     user_state := student_data_store
     user_info := student_data_store
     preferences := student_data_store },
   { rt with django_field_data_caches := sds.2 })

/-- The `service(block, "field-data")` branch of `XBlockRuntime.service`
(lines 239-247), parameterised over the initialisation step so that both
the normal path and the exception path (`except: store None; raise`) can
be expressed.  Returns the service result (or the re-raised error) and
the runtime with `block_field_datas` updated. -/
def service_field_data_with {E : Type}
    (init : XBlockRuntime → Block → Except E (SplitFieldData × XBlockRuntime))
    (rt : XBlockRuntime) (block : Block) :
    Except E (Option SplitFieldData) × XBlockRuntime :=
  match rt.block_field_datas block.scope_ids with
  | some cached => (.ok cached, rt)
  | none =>
    match init rt block with
    | .ok res =>
      (.ok (some res.1),
        { res.2 with
          block_field_datas :=
            (setMap res.2.block_field_datas block.scope_ids (some res.1)) })
    | .error e =>
      -- Don't try again pointlessly every time another field is accessed
      (.error e,
        { rt with
          block_field_datas :=
            (setMap rt.block_field_datas block.scope_ids none) })

/-- Model of `service(block, "field-data")` with the actual initialiser
`_init_field_data_for_block` (which, in the embedding, cannot raise). -/
def service_field_data (rt : XBlockRuntime) (block : Block) :
    Except Empty (Option SplitFieldData) × XBlockRuntime :=
  service_field_data_with (fun rt' b => .ok (_init_field_data_for_block rt' b))
    rt block

/-- Event payload passed to `publish`.  `runtime.py` only forwards its
entries to handlers and logs, so an association list suffices. -/
abbrev EventData := List (String × Int)

/-- The special handlers `get_event_handler` can select. -/
inductive EventHandler
  | gradeHandler
  | completionHandler
deriving DecidableEq, Repr

/-- Model of `XBlockRuntime.get_event_handler` (lines 156-170): `None` for an
absent `user_id`, the grade handler for `'grade'`, the completion handler
for `'completion'`, `None` otherwise. -/
def get_event_handler (user_id : Option UserId) (event_type : String) :
    Option EventHandler :=
  if user_id = none then none
  else if event_type = "grade" then some .gradeHandler
  else if event_type = "completion" then some .completionHandler
  else none

/-- The payload of a `SCORE_PUBLISHED` signal sent by
`handle_grade_event`. -/
structure ScoreSignal where
  user : UserM
  block : Block
  event : EventData
deriving DecidableEq, Repr

/-- Model of `XBlockRuntime.handle_grade_event` (lines 184-198): sends
`SCORE_PUBLISHED` only when there is a user and the user is not
anonymous; otherwise it does nothing. -/
def handle_grade_event (user : Option UserM) (block : Block)
    (event : EventData) : Option ScoreSignal :=
  match user with
  | some u => if u.is_anonymous then none else some ⟨u, block, event⟩
  | none => none

/-- A completion submission made by `handle_completion_event`. -/
structure CompletionSubmission where
  user : Option UserM
  block_key : UsageKey
  event : EventData
deriving DecidableEq, Repr

/-- Model of `XBlockRuntime.handle_completion_event` (lines 200-210): submits a
`BlockCompletion` unless the completion-tracking switch is disabled.
The switch (`ENABLE_COMPLETION_TRACKING_SWITCH`) is external
configuration, passed as a parameter. -/
def handle_completion_event (switchEnabled : Bool) (user : Option UserM)
    (block : Block) (event : EventData) : Option CompletionSubmission :=
  if switchEnabled then some ⟨user, block.scope_ids.usage_id, event⟩ else none

/-- The observable effects of one `publish` call: at most one of a score
signal, a completion submission, or a tracking-log write. -/
structure PublishEffects where
  score_published : Option ScoreSignal
  completion_submitted : Option CompletionSubmission
  tracking_logged : Option (String × EventData)
deriving DecidableEq, Repr

/-- Where `publish` dispatched the event. -/
inductive PublishDispatch
  | toGradeHandler
  | toCompletionHandler
  | toTrackingLog
deriving DecidableEq, Repr

/-- Model of `XBlockRuntime.publish` (lines 148-154): call the special handler
selected by `get_event_handler` if there is one, otherwise write the
event to the tracking log via `log_event_to_tracking_log`. -/
def publish (rt : XBlockRuntime) (switchEnabled : Bool) (block : Block)
    (event_type : String) (event_data : EventData) :
    PublishDispatch × PublishEffects :=
  match get_event_handler rt.user_id event_type with
  | some .gradeHandler =>
    (.toGradeHandler,
      { score_published := handle_grade_event rt.user block event_data
        completion_submitted := none
        tracking_logged := none })
  | some .completionHandler =>
    (.toCompletionHandler,
      { score_published := none
        completion_submitted :=
          handle_completion_event switchEnabled rt.user block event_data
        tracking_logged := none })
  | none =>
    (.toTrackingLog,
      { score_published := none
        completion_submitted := none
        tracking_logged := some (event_type, event_data) })

/-- A resource attached to a web fragment (kind and data, with URL data
as a character list so prefixing is explicit). -/
structure FragmentResource where
  kind : String
  data : List Char
deriving DecidableEq, Repr

/-- A `web_fragments.fragment.Fragment`: HTML content plus resources. -/
structure Fragment where
  content : List Char
  resources : List FragmentResource
deriving DecidableEq, Repr

/-- Python `str.startswith('/')` on our character-list URLs. -/
def startsWithSlash : List Char → Bool
  | [] => false
  | c :: _ => c = '/'

/-- Modelled from the spec: `wrap_fragment`
(`openedx.core.lib.xblock_utils`, not under src/) returns a fragment
whose content is the given wrapped content and which keeps the original
fragment's resources. -/
def wrap_fragment (frag : Fragment) (wrapped_content : List Char) : Fragment :=
  { frag with content := wrapped_content }

/-- The error `render` can raise. -/
inductive RenderError
  | permissionDenied
deriving DecidableEq, Repr

/-- Whether the permission check at the top of `render` sees a user who
is missing or anonymous. -/
def user_is_none_or_anonymous : Option UserM → Bool
  | none => true
  | some u => u.is_anonymous

/-- The rewrite applied to one fragment resource when `needs_fix` holds
(lines 367-369): a relative `'url'` resource gets the site root URL
prefixed. -/
def fix_resource (site_root_url : List Char) (r : FragmentResource) :
    FragmentResource :=
  if r.kind == "url" && startsWithSlash r.data then
    { r with data := site_root_url ++ r.data }
  else r

/-- The `needs_fix` step of `XBlockRuntime.render` (lines 357-370): when
any resource is a relative `'url'`, rebuild the fragment with every such
resource's URL prefixed by the site root URL. -/
def render_fixed_fragment (site_root_url : List Char)
    (view_fragment : Fragment) : Fragment :=
  let fragment := view_fragment
  let needs_fix := fragment.resources.any
    (fun r => r.kind == "url" && startsWithSlash r.data)
  if needs_fix then
    { fragment with
      resources := fragment.resources.map (fix_resource site_root_url) }
  else fragment

/-- Model of `XBlockRuntime.render` (lines 342-380): the permission check, the
relative resource URL fix, and the final `wrap_fragment` with
`ReplaceURLService(...).replace_urls` applied to the content.  The
framework `super().render` call that runs the block's view is external;
its output is the `view_fragment` parameter.  `site_root_url` is
`get_xblock_app_config().get_site_root_url()` and `replace_urls` is
`ReplaceURLService(...).replace_urls`, both external. -/
def render (rt : XBlockRuntime) (site_root_url : List Char)
    (replace_urls : List Char → List Char) (view_name : String)
    (view_fragment : Fragment) : Except RenderError Fragment :=
  if user_is_none_or_anonymous rt.user ∧ view_name ≠ "public_view" then
    .error .permissionDenied
  else
    let fragment := render_fixed_fragment site_root_url view_fragment
    .ok (wrap_fragment fragment (replace_urls fragment.content))

/-! Concrete sample values used by witness theorems. -/

def sampleUsageKey : UsageKey := ⟨"course-v1:TestX+T1+2026", "block1"⟩

def sampleBlock : Block := ⟨⟨sampleUsageKey⟩⟩

def sampleBlock2 : Block := ⟨⟨⟨"course-v1:TestX+T1+2026", "block2"⟩⟩⟩

def sysPersisted : XBlockRuntimeSystem := ⟨StudentDataMode.Persisted⟩

def sysEphemeral : XBlockRuntimeSystem := ⟨StudentDataMode.Ephemeral⟩

def rtNoUser : XBlockRuntime := sysPersisted.get_runtime none

def rtRegistered : XBlockRuntime :=
  sysPersisted.get_runtime (some (UserM.registeredUser 7 false))

def rtAnon : XBlockRuntime :=
  sysPersisted.get_runtime (some (UserM.anonymousUser "sess42"))

/-- C1: `_init_field_data_for_block` selects the per-user student data
store as follows: no user ⇒ `None`; anonymous user or Ephemeral mode ⇒
a `KvsFieldData` over a fresh `EphemeralKeyValueStore`; otherwise a
database-backed `KvsFieldData` over a `DjangoKeyValueStore` built from a
`FieldDataCache`. -/
theorem init_field_data_student_store_selection
    (rt : XBlockRuntime) (block : Block) :
    (rt.user = none →
      ((_init_field_data_for_block rt block).1).user_state = none) ∧
    (∀ u, rt.user = some u →
      (u.is_anonymous = true ∨
        rt.system.student_data_mode = StudentDataMode.Ephemeral) →
      ((_init_field_data_for_block rt block).1).user_state =
        some (.kvsFieldData (.ephemeral ⟨[]⟩))) ∧
    (∀ u, rt.user = some u → u.is_anonymous = false →
      rt.system.student_data_mode = StudentDataMode.Persisted →
      ∃ fdc : FieldDataCache,
        ((_init_field_data_for_block rt block).1).user_state =
          some (.kvsFieldData (.django fdc))) := by
  refine ⟨?_, ?_, ?_⟩
  · intro h
    simp [_init_field_data_for_block, compute_student_data_store, h]
  · intro u hu hcase
    rcases hcase with hanon | hmode
    · simp [_init_field_data_for_block, compute_student_data_store, hu, hanon]
    · simp [_init_field_data_for_block, compute_student_data_store, hu, hmode]
  · intro u hu hanon hmode
    cases h : rt.django_field_data_caches block.scope_ids.usage_id.context_key
      with
    | none =>
      exact ⟨⟨block.scope_ids.usage_id.context_key, u, [block], false⟩,
        by simp [_init_field_data_for_block, compute_student_data_store, hu,
          hanon, hmode, h]⟩
    | some c =>
      exact ⟨c.add_blocks_to_cache [block],
        by simp [_init_field_data_for_block, compute_student_data_store, hu,
          hanon, hmode, h]⟩

/-- Witness for C1: evaluated on concrete runtimes (no user; anonymous;
registered user in Persisted mode). -/
theorem init_field_data_student_store_selection_witness :
    rtNoUser.user = none ∧
    ((_init_field_data_for_block rtNoUser sampleBlock).1).user_state =
      none ∧
    ((_init_field_data_for_block rtAnon sampleBlock).1).user_state =
      some (.kvsFieldData (.ephemeral ⟨[]⟩)) ∧
    ∃ fdc : FieldDataCache,
      ((_init_field_data_for_block rtRegistered sampleBlock).1).user_state =
        some (.kvsFieldData (.django fdc)) :=
  ⟨rfl,
    (init_field_data_student_store_selection rtNoUser sampleBlock).1 rfl,
    (init_field_data_student_store_selection rtAnon sampleBlock).2.1
      (UserM.anonymousUser "sess42") rfl (Or.inl rfl),
    (init_field_data_student_store_selection rtRegistered sampleBlock).2.2
      (UserM.registeredUser 7 false) rfl rfl rfl⟩

/-- Looking up the key just set returns the new value. -/
theorem setMap_same {K V : Type} [DecidableEq K] (m : K → Option V) (k : K)
    (v : V) : setMap m k v k = some v := by
  simp [setMap]

/-- Looking up any other key is unchanged by `setMap`. -/
theorem setMap_other {K V : Type} [DecidableEq K] (m : K → Option V)
    (k k' : K) (v : V) (h : k' ≠ k) : setMap m k v k' = m k' := by
  simp [setMap, h]

/-- C2: repeated `service(block, "field-data")` calls construct the
block's FieldData at most once: the first call (cache miss) builds it via
`_init_field_data_for_block` and stores it under the block's `scope_ids`;
every subsequent call for the same `scope_ids` returns the identical
cached object, for any initialiser whatsoever (so nothing is
reconstructed), and leaves the runtime unchanged. -/
theorem service_field_data_caches_once (rt : XBlockRuntime) (block : Block)
    (h : rt.block_field_datas block.scope_ids = none) :
    ∃ rt1 : XBlockRuntime,
      service_field_data rt block =
        (.ok (some (_init_field_data_for_block rt block).1), rt1) ∧
      rt1.block_field_datas block.scope_ids =
        some (some (_init_field_data_for_block rt block).1) ∧
      ∀ (E : Type)
        (init : XBlockRuntime → Block →
          Except E (SplitFieldData × XBlockRuntime)),
        service_field_data_with init rt1 block =
          (.ok (some (_init_field_data_for_block rt block).1), rt1) := by
  refine ⟨{ (_init_field_data_for_block rt block).2 with
      block_field_datas :=
        (setMap ((_init_field_data_for_block rt block).2).block_field_datas
          block.scope_ids (some (_init_field_data_for_block rt block).1)) },
    ?_, ?_, ?_⟩
  · simp [service_field_data, service_field_data_with, h]
  · simp [setMap]
  · intro E init
    simp [service_field_data_with, setMap]

/-- Witness for C2: evaluated on a concrete fresh runtime and block. -/
theorem service_field_data_caches_once_witness :
    rtRegistered.block_field_datas sampleBlock.scope_ids = none ∧
    ∃ rt1 : XBlockRuntime,
      service_field_data rtRegistered sampleBlock =
        (.ok (some (_init_field_data_for_block rtRegistered sampleBlock).1),
          rt1) ∧
      rt1.block_field_datas sampleBlock.scope_ids =
        some (some (_init_field_data_for_block rtRegistered sampleBlock).1) ∧
      ∀ (E : Type)
        (init : XBlockRuntime → Block →
          Except E (SplitFieldData × XBlockRuntime)),
        service_field_data_with init rt1 sampleBlock =
          (.ok (some (_init_field_data_for_block rtRegistered sampleBlock).1),
            rt1) :=
  ⟨rfl, service_field_data_caches_once rtRegistered sampleBlock rfl⟩

/-- C3: the FieldData returned by `_init_field_data_for_block` is a
`SplitFieldData` routing `content`, `settings` and `parent` to the
system's authored data store, `children` to the system's children data
store, and the four user scopes (`user_state_summary`, `user_state`,
`user_info`, `preferences`) to the per-user student data store selected
for that block. -/
theorem init_field_data_scope_routing (rt : XBlockRuntime) (block : Block) :
    ((_init_field_data_for_block rt block).1).route Scope.content =
      some .authored ∧
    ((_init_field_data_for_block rt block).1).route Scope.settings =
      some .authored ∧
    ((_init_field_data_for_block rt block).1).route Scope.parent =
      some .authored ∧
    ((_init_field_data_for_block rt block).1).route Scope.children =
      some .childrenData ∧
    ((_init_field_data_for_block rt block).1).route Scope.user_state_summary =
      (compute_student_data_store rt block).1 ∧
    ((_init_field_data_for_block rt block).1).route Scope.user_state =
      (compute_student_data_store rt block).1 ∧
    ((_init_field_data_for_block rt block).1).route Scope.user_info =
      (compute_student_data_store rt block).1 ∧
    ((_init_field_data_for_block rt block).1).route Scope.preferences =
      (compute_student_data_store rt block).1 := by
  simp [_init_field_data_for_block, SplitFieldData.route]

/-- C4: in Persisted mode with a registered user, the runtime keeps at
most one `FieldDataCache` per learning context: a first initialisation
for a context creates the cache (holding exactly that block) and stores
it under the context key; a later initialisation in the same context
reuses the stored cache, extending it with the new block via
`add_blocks_to_cache` instead of creating a second cache; entries for
other contexts are untouched. -/
theorem init_field_data_one_cache_per_context (rt : XBlockRuntime)
    (block : Block) (n : Nat) (staff : Bool)
    (hu : rt.user = some (UserM.registeredUser n staff))
    (hm : rt.system.student_data_mode = StudentDataMode.Persisted) :
    (rt.django_field_data_caches block.scope_ids.usage_id.context_key =
        none →
      ((_init_field_data_for_block rt block).2).django_field_data_caches
          block.scope_ids.usage_id.context_key =
        some ⟨block.scope_ids.usage_id.context_key,
          UserM.registeredUser n staff, [block], false⟩) ∧
    (∀ c : FieldDataCache,
      rt.django_field_data_caches block.scope_ids.usage_id.context_key =
          some c →
      ((_init_field_data_for_block rt block).2).django_field_data_caches
          block.scope_ids.usage_id.context_key =
        some (c.add_blocks_to_cache [block])) ∧
    (∀ ck : String, ck ≠ block.scope_ids.usage_id.context_key →
      ((_init_field_data_for_block rt block).2).django_field_data_caches ck =
        rt.django_field_data_caches ck) := by
  refine ⟨?_, ?_, ?_⟩
  · intro h
    simp [_init_field_data_for_block, compute_student_data_store, hu, hm, h,
      UserM.is_anonymous, setMap]
  · intro c h
    simp [_init_field_data_for_block, compute_student_data_store, hu, hm, h,
      UserM.is_anonymous, setMap]
  · intro ck hck
    cases h : rt.django_field_data_caches block.scope_ids.usage_id.context_key
      with
    | none =>
      simp [_init_field_data_for_block, compute_student_data_store, hu, hm, h,
        UserM.is_anonymous, setMap, hck]
    | some c =>
      simp [_init_field_data_for_block, compute_student_data_store, hu, hm, h,
        UserM.is_anonymous, setMap, hck]

/-- The runtime state after the first field-data initialisation of
`rtRegistered`, used to exercise the cache-reuse branch. -/
def rtRegistered2 : XBlockRuntime :=
  (_init_field_data_for_block rtRegistered sampleBlock).2

/-- Witness for C4: a concrete first initialisation creates and stores
the cache, and a second block in the same context extends it. -/
theorem init_field_data_one_cache_per_context_witness :
    rtRegistered.django_field_data_caches
      sampleBlock.scope_ids.usage_id.context_key = none ∧
    ((_init_field_data_for_block rtRegistered sampleBlock).2
        ).django_field_data_caches
        sampleBlock.scope_ids.usage_id.context_key =
      some ⟨sampleBlock.scope_ids.usage_id.context_key,
        UserM.registeredUser 7 false, [sampleBlock], false⟩ ∧
    rtRegistered2.django_field_data_caches
        sampleBlock2.scope_ids.usage_id.context_key =
      some ⟨sampleBlock.scope_ids.usage_id.context_key,
        UserM.registeredUser 7 false, [sampleBlock], false⟩ ∧
    ((_init_field_data_for_block rtRegistered2 sampleBlock2).2
        ).django_field_data_caches
        sampleBlock2.scope_ids.usage_id.context_key =
      some ((⟨sampleBlock.scope_ids.usage_id.context_key,
        UserM.registeredUser 7 false, [sampleBlock],
        false⟩ : FieldDataCache).add_blocks_to_cache [sampleBlock2]) :=
  ⟨by decide,
    (init_field_data_one_cache_per_context rtRegistered sampleBlock 7 false
      rfl rfl).1 (by decide),
    by decide,
    (init_field_data_one_cache_per_context rtRegistered2 sampleBlock2 7 false
      rfl rfl).2.1
      ⟨sampleBlock.scope_ids.usage_id.context_key,
        UserM.registeredUser 7 false, [sampleBlock], false⟩ (by decide)⟩

/-- C5: `publish` dispatch: with a non-None `user_id`, a `'grade'` event
goes to `handle_grade_event` and a `'completion'` event to
`handle_completion_event`; in every other case (other event type, or
`user_id` None) the event is written to the tracking log. -/
theorem publish_dispatch_cases (rt : XBlockRuntime) (sw : Bool)
    (block : Block) (event_type : String) (event_data : EventData) :
    (rt.user_id ≠ none → event_type = "grade" →
      (publish rt sw block event_type event_data).1 = .toGradeHandler) ∧
    (rt.user_id ≠ none → event_type = "completion" →
      (publish rt sw block event_type event_data).1 =
        .toCompletionHandler) ∧
    ((rt.user_id = none ∨
        (event_type ≠ "grade" ∧ event_type ≠ "completion")) →
      (publish rt sw block event_type event_data).1 = .toTrackingLog ∧
      (publish rt sw block event_type event_data).2.tracking_logged =
        some (event_type, event_data)) := by
  refine ⟨?_, ?_, ?_⟩
  · intro hne het
    subst het
    simp [publish, get_event_handler, hne]
  · intro hne het
    subst het
    simp [publish, get_event_handler, hne]
  · intro hcase
    rcases hcase with hid | ⟨hg, hc⟩
    · simp [publish, get_event_handler, hid]
    · constructor
      · simp [publish, get_event_handler, hg, hc]
      · simp [publish, get_event_handler, hg, hc]

/-- Witness for C5: a registered user's grade event dispatches to the
grade handler; with no user the same event goes to the tracking log. -/
theorem publish_dispatch_cases_witness :
    rtRegistered.user_id ≠ none ∧
    (publish rtRegistered true sampleBlock "grade" []).1 =
      .toGradeHandler ∧
    rtNoUser.user_id = none ∧
    (publish rtNoUser true sampleBlock "grade" []).1 = .toTrackingLog ∧
    (publish rtNoUser true sampleBlock "grade" []).2.tracking_logged =
      some ("grade", []) :=
  ⟨by decide,
    (publish_dispatch_cases rtRegistered true sampleBlock "grade" []).1
      (by decide) rfl,
    rfl,
    ((publish_dispatch_cases rtNoUser true sampleBlock "grade" []).2.2
      (Or.inl rfl)).1,
    ((publish_dispatch_cases rtNoUser true sampleBlock "grade" []).2.2
      (Or.inl rfl)).2⟩

/-- C7: `get_runtime(user)` returns a freshly constructed runtime for
that user (empty caches), whose `user_id` is None for no user, the
anonymous XBlock id for an anonymous user, and `user.id` for a
registered user. -/
theorem get_runtime_user_id (sys : XBlockRuntimeSystem)
    (user : Option UserM) :
    (sys.get_runtime user).user = user ∧
    (user = none → (sys.get_runtime user).user_id = none) ∧
    (∀ sk, user = some (UserM.anonymousUser sk) →
      (sys.get_runtime user).user_id =
        some (.str
          (get_xblock_id_for_anonymous_user (UserM.anonymousUser sk)))) ∧
    (∀ n staff, user = some (UserM.registeredUser n staff) →
      (sys.get_runtime user).user_id = some (.int n)) ∧
    (∀ sid : ScopeIds, (sys.get_runtime user).block_field_datas sid = none) ∧
    (∀ ck : String,
      (sys.get_runtime user).django_field_data_caches ck = none) := by
  refine ⟨rfl, ?_, ?_, ?_, fun _ => rfl, fun _ => rfl⟩
  · intro h
    subst h
    rfl
  · intro sk h
    subst h
    rfl
  · intro n staff h
    subst h
    rfl

/-- Witness for C7: evaluated at a concrete anonymous user and a
concrete registered user. -/
theorem get_runtime_user_id_witness :
    (sysPersisted.get_runtime
        (some (UserM.anonymousUser "sess42"))).user_id =
      some (.str
        (get_xblock_id_for_anonymous_user (UserM.anonymousUser "sess42"))) ∧
    (sysPersisted.get_runtime
        (some (UserM.registeredUser 7 false))).user_id =
      some (.int 7) :=
  ⟨(get_runtime_user_id sysPersisted
      (some (UserM.anonymousUser "sess42"))).2.2.1 "sess42" rfl,
    (get_runtime_user_id sysPersisted
      (some (UserM.registeredUser 7 false))).2.2.2.1 7 false rfl⟩

/-- C8: a user who is missing or anonymous gets `PermissionDenied` from
`render` for any view other than `public_view`; for `public_view` the
check never rejects and render succeeds, regardless of user. -/
theorem render_permission_check (rt : XBlockRuntime)
    (site_root_url : List Char) (replace_urls : List Char → List Char)
    (view_name : String) (view_fragment : Fragment) :
    (user_is_none_or_anonymous rt.user = true → view_name ≠ "public_view" →
      render rt site_root_url replace_urls view_name view_fragment =
        .error .permissionDenied) ∧
    (view_name = "public_view" →
      ∃ out : Fragment,
        render rt site_root_url replace_urls view_name view_fragment =
          .ok out) := by
  constructor
  · intro ha hv
    simp [render, ha, hv]
  · intro hv
    subst hv
    refine ⟨wrap_fragment (render_fixed_fragment site_root_url view_fragment)
      (replace_urls
        (render_fixed_fragment site_root_url view_fragment).content), ?_⟩
    simp [render]

/-- Witness for C8: a concrete anonymous user is denied `student_view`
but succeeds with `public_view`. -/
theorem render_permission_check_witness :
    user_is_none_or_anonymous rtAnon.user = true ∧
    render rtAnon [] id "student_view" ⟨[], []⟩ =
      .error .permissionDenied ∧
    ∃ out : Fragment, render rtAnon [] id "public_view" ⟨[], []⟩ = .ok out :=
  ⟨rfl,
    (render_permission_check rtAnon [] id "student_view" ⟨[], []⟩).1 rfl
      (by decide),
    (render_permission_check rtAnon [] id "public_view" ⟨[], []⟩).2 rfl⟩

/-- C9: if initialisation raises during a field-data service call, the
runtime stores `None` under the block's `scope_ids` and re-raises; every
subsequent field-data call for the same `scope_ids` returns `None`
without retrying initialisation (for any initialiser). -/
theorem service_field_data_error_path (E : Type)
    (init : XBlockRuntime → Block → Except E (SplitFieldData × XBlockRuntime))
    (rt : XBlockRuntime) (block : Block) (e : E)
    (h : rt.block_field_datas block.scope_ids = none)
    (hinit : init rt block = .error e) :
    ∃ rt1 : XBlockRuntime,
      service_field_data_with init rt block = (.error e, rt1) ∧
      rt1.block_field_datas block.scope_ids = some none ∧
      ∀ (E' : Type)
        (init' : XBlockRuntime → Block →
          Except E' (SplitFieldData × XBlockRuntime)),
        service_field_data_with init' rt1 block = (.ok none, rt1) := by
  refine ⟨{ rt with
      block_field_datas :=
        (setMap rt.block_field_datas block.scope_ids none) }, ?_, ?_, ?_⟩
  · simp [service_field_data_with, h, hinit]
  · simp [setMap]
  · intro E' init'
    simp [service_field_data_with, setMap]

/-- Witness for C9: a concrete always-failing initialiser on a fresh
runtime. -/
theorem service_field_data_error_path_witness :
    rtAnon.block_field_datas sampleBlock.scope_ids = none ∧
    (fun (_ : XBlockRuntime) (_ : Block) =>
        (.error () : Except Unit (SplitFieldData × XBlockRuntime)))
      rtAnon sampleBlock = .error () ∧
    ∃ rt1 : XBlockRuntime,
      service_field_data_with
          (fun _ _ =>
            (.error () : Except Unit (SplitFieldData × XBlockRuntime)))
          rtAnon sampleBlock = (.error (), rt1) ∧
      rt1.block_field_datas sampleBlock.scope_ids = some none ∧
      ∀ (E' : Type)
        (init' : XBlockRuntime → Block →
          Except E' (SplitFieldData × XBlockRuntime)),
        service_field_data_with init' rt1 sampleBlock = (.ok none, rt1) :=
  ⟨rfl, rfl,
    service_field_data_error_path Unit (fun _ _ => .error ()) rtAnon
      sampleBlock () rfl rfl⟩

/-- C10: for an anonymous user (whose `user_id` is a non-None
anonymous-id string), publishing a `'grade'` event has no observable
effect: the grade handler is selected (so nothing reaches the tracking
log), and the handler sends no `SCORE_PUBLISHED` signal because the user
is anonymous. -/
theorem publish_grade_anonymous_no_effect (sys : XBlockRuntimeSystem)
    (sk : String) (block : Block) (sw : Bool) (event_data : EventData) :
    (∃ s : String,
      (sys.get_runtime (some (UserM.anonymousUser sk))).user_id =
        some (.str s)) ∧
    get_event_handler
        (sys.get_runtime (some (UserM.anonymousUser sk))).user_id "grade" =
      some .gradeHandler ∧
    publish (sys.get_runtime (some (UserM.anonymousUser sk))) sw block
        "grade" event_data =
      (.toGradeHandler,
        { score_published := none
          completion_submitted := none
          tracking_logged := none }) :=
  ⟨⟨get_xblock_id_for_anonymous_user (UserM.anonymousUser sk), rfl⟩, rfl, rfl⟩

/-- Prefixing a non-empty string leaves its first character in charge of
`startswith('/')`. -/
theorem startsWithSlash_append (s t : List Char) (h : s ≠ []) :
    startsWithSlash (s ++ t) = startsWithSlash s := by
  cases s with
  | nil => exact absurd rfl h
  | cons c cs => rfl

/-- The `needs_fix` step never changes the fragment's content. -/
theorem render_fixed_fragment_content (s : List Char) (vf : Fragment) :
    (render_fixed_fragment s vf).content = vf.content := by
  simp only [render_fixed_fragment]
  split <;> rfl

/-- After the `needs_fix` step, no `'url'` resource is relative, provided
the site root URL is non-empty and does not itself start with `'/'`. -/
theorem render_fixed_fragment_no_relative (s : List Char) (vf : Fragment)
    (hrel : startsWithSlash s = false) (hne : s ≠ []) :
    ∀ r ∈ (render_fixed_fragment s vf).resources, r.kind = "url" →
      startsWithSlash r.data = false := by
  intro r hr hkind
  simp only [render_fixed_fragment] at hr
  split at hr
  · -- needs_fix: every resource went through fix_resource
    simp only [List.mem_map] at hr
    obtain ⟨r0, hr0, rfl⟩ := hr
    by_cases hc : (r0.kind == "url" && startsWithSlash r0.data) = true
    · have hfr : fix_resource s r0 = { r0 with data := s ++ r0.data } := by
        simp [fix_resource, hc]
      rw [hfr]
      exact (startsWithSlash_append s r0.data hne).trans hrel
    · have hfr : fix_resource s r0 = r0 := by
        simp only [fix_resource]
        rw [if_neg hc]
      rw [hfr] at hkind ⊢
      simp [hkind] at hc
      exact hc
  · -- no fix needed: no resource was a relative url in the first place
    rename_i hfix
    cases hsw : startsWithSlash r.data with
    | false => rfl
    | true =>
      exact absurd (List.any_eq_true.mpr ⟨r, hr, by simp [hkind, hsw]⟩) hfix

/-- C6: a successful `render` returns a fragment with no relative `'url'`
resource (each one was rewritten by prefixing the site root URL, assumed
non-empty and not itself starting with `'/'`), and with the fragment
content passed through `ReplaceURLService(...).replace_urls`. -/
theorem render_rewrites_relative_urls (rt : XBlockRuntime)
    (site_root_url : List Char) (replace_urls : List Char → List Char)
    (view_name : String) (view_fragment out : Fragment)
    (hrel : startsWithSlash site_root_url = false)
    (hne : site_root_url ≠ [])
    (hok : render rt site_root_url replace_urls view_name view_fragment =
      .ok out) :
    (∀ r ∈ out.resources, r.kind = "url" →
      startsWithSlash r.data = false) ∧
    out.content = replace_urls view_fragment.content ∧
    (view_fragment.resources.any
        (fun r => r.kind == "url" && startsWithSlash r.data) = true →
      out.resources =
        view_fragment.resources.map (fix_resource site_root_url)) ∧
    (view_fragment.resources.any
        (fun r => r.kind == "url" && startsWithSlash r.data) = false →
      out.resources = view_fragment.resources) := by
  unfold render at hok
  split at hok
  · exact absurd hok (by simp)
  · injection hok with hout
    subst hout
    refine ⟨?_, ?_, ?_, ?_⟩
    · simpa [wrap_fragment] using
        render_fixed_fragment_no_relative site_root_url view_fragment hrel
          hne
    · simp [wrap_fragment, render_fixed_fragment_content]
    · intro hfix
      simp [wrap_fragment, render_fixed_fragment, hfix]
    · intro hfix
      simp [wrap_fragment, render_fixed_fragment, hfix]

/-- A sample site root URL (no leading slash). -/
def sampleSiteRoot : List Char := ['h', 'x']

/-- A sample view fragment with one relative url resource. -/
def sampleViewFragment : Fragment :=
  ⟨['h', 'i'], [⟨"url", ['/', 'a']⟩, ⟨"data", ['q']⟩]⟩

/-- The fragment `render` returns for `sampleViewFragment` (identity
`replace_urls`): the relative url got the site root prefixed. -/
def sampleRenderOut : Fragment :=
  ⟨['h', 'i'], [⟨"url", ['h', 'x', '/', 'a']⟩, ⟨"data", ['q']⟩]⟩

/-- Witness for C6: a concrete render rewrites the relative url and
keeps the (identity-substituted) content. -/
theorem render_rewrites_relative_urls_witness :
    startsWithSlash sampleSiteRoot = false ∧
    sampleSiteRoot ≠ [] ∧
    render rtRegistered sampleSiteRoot id "student_view"
        sampleViewFragment = .ok sampleRenderOut ∧
    ((∀ r ∈ sampleRenderOut.resources, r.kind = "url" →
        startsWithSlash r.data = false) ∧
      sampleRenderOut.content = id sampleViewFragment.content ∧
      (sampleViewFragment.resources.any
          (fun r => r.kind == "url" && startsWithSlash r.data) = true →
        sampleRenderOut.resources =
          sampleViewFragment.resources.map (fix_resource sampleSiteRoot)) ∧
      (sampleViewFragment.resources.any
          (fun r => r.kind == "url" && startsWithSlash r.data) = false →
        sampleRenderOut.resources = sampleViewFragment.resources)) :=
  ⟨rfl, by decide, rfl,
    render_rewrites_relative_urls rtRegistered sampleSiteRoot id
      "student_view" sampleViewFragment sampleRenderOut rfl (by decide) rfl⟩

end XBlockRuntimeModel
